import Mathlib

/-!
Verification development for the FFI cache boundary of `src/cache.rs`
(`init_cache`, `save_wasm`, `load_wasm`, `release_cache` and their inner
`do_*` functions).

The boundary functions are translated directly from `src/cache.rs`.  The
helpers that the boundary imports from elsewhere in the repository
(`Buffer`, the error channel, the argument-name constants) and the external
engine (`Cache`, `Checksum`, `features_from_csv`, `Size`) are modelled from
the specification; each such definition carries a doc comment starting
with `Modelled from the spec:`.

Machine-level conventions of the embedding:
* bytes are `Nat` values (< 256 in any real execution trace);
* a raw pointer is a `Nat`, with `0` standing for the null pointer;
* heap-held cache instances live in an explicit `World` registry mapping
  pointer values to engine-cache instances, so `Box::into_raw` /
  `Box::from_raw` become registration / removal in the registry;
* Rust's `usize::MAX` (platform dependent) is threaded as an explicit
  `usize_max : Nat` argument where a `u32 -> usize` conversion occurs.
-/

set_option maxRecDepth 8192

/-- Modelled from the spec: a Transfer Buffer is a raw address plus the byte
data visible at that address (`{ pointer, length }` wire form; absence is a
null pointer).  `ptr = 0` is the null buffer. -/
structure Buffer where
  ptr : Nat
  data : List Nat
  deriving Repr, DecidableEq

/-- Modelled from the spec: `read(buffer) -> Option<byte slice>` fails softly,
returning "absent" for a null or zero-length buffer, so operations that
require non-empty content treat both null and zero-length input as
"empty/absent". -/
def Buffer.read (b : Buffer) : Option (List Nat) :=
  if b.ptr = 0 ∨ b.data = [] then none else some b.data

/-- Modelled from the spec: `into_owned`/`Buffer::from_vec` allocates and
transfers ownership of computed output to the host.  The concrete address is
irrelevant to the boundary contract; the model uses the non-null address 1. -/
def Buffer.from_vec (v : List Nat) : Buffer :=
  ⟨1, v⟩

/-- Modelled from the spec: argument name for the cache handle (`args.rs`). -/
def CACHE_ARG : String := "cache"

/-- Modelled from the spec: argument name for the data directory (`args.rs`). -/
def DATA_DIR_ARG : String := "data_dir"

/-- Modelled from the spec: argument name for the feature list (`args.rs`). -/
def FEATURES_ARG : String := "supported_features"

/-- Modelled from the spec: argument name for the wasm bytes (`args.rs`). -/
def WASM_ARG : String := "wasm"

/-- Modelled from the spec: the boundary error taxonomy (§7): empty/missing
required argument, malformed UTF-8, checksum format mismatch, underlying
engine failure (opaque message passthrough), not-found, and contained
internal fault (`Error::panic()` in the source). -/
inductive Error where
  | empty_arg (name : String)
  | invalid_utf8
  | checksum_format
  | engine (msg : String)
  | not_found
  | internal_fault
  deriving Repr, DecidableEq

/-- Bytes of a string, used for serialized error messages (all messages in
the model are ASCII, so codepoints and UTF-8 bytes coincide). -/
def strBytes (s : String) : List Nat :=
  s.data.map Char.toNat

/-- Modelled from the spec: the human-readable display message of each error,
serialized to UTF-8 bytes.  The engine-failure display prefix
"Error calling the VM: " is taken from the test expectation in
`src/cache.rs` (`init_cache_writes_error`). -/
def errMsgBytes : Error → List Nat
  | .empty_arg name => strBytes "Empty argument: " ++ strBytes name
  | .invalid_utf8 => strBytes "Cannot decode UTF8 bytes into string"
  | .checksum_format => strBytes "Checksum not of expected length"
  | .engine msg => strBytes "Error calling the VM: " ++ strBytes msg
  | .not_found => strBytes "Error calling the VM: Cache error: Error opening Wasm file for reading"
  | .internal_fault => strBytes "Caught panic"

/-- Modelled from the spec: `set_error(error, output)` serializes the error's
display message to UTF-8 bytes, wraps it as an owned Transfer Buffer and
stores it into the output parameter if present; if absent the message is
dropped. -/
def set_error (e : Error) (errout : Option Buffer) : Option Buffer :=
  match errout with
  | some _ => some (Buffer.from_vec (errMsgBytes e))
  | none => none

/-- Modelled from the spec: `handle_c_error` routes a result through the
error channel: on success the data crosses the boundary and only the
process-wide last-error state is cleared (`clear_error()` takes no reference
to the output parameter, which is therefore left untouched); on failure the
output parameter is populated via `set_error` and the default (empty) data
is returned. -/
def handle_c_error (r : Except Error (List Nat)) (errout : Option Buffer) :
    List Nat × Option Buffer :=
  match r with
  | .ok t => (t, errout)
  | .error e => ([], set_error e errout)

/-- Outcome of an inner (pre-containment) computation: a value, a returned
error, or a fault that starts unwinding (`panic!` in Rust). -/
inductive Outcome (α : Type) where
  | ok (a : α)
  | err (e : Error)
  | panicked
  deriving Repr, DecidableEq

/-- The `catch_unwind(..).unwrap_or_else(|_| Err(Error::panic()))` pattern of
`src/cache.rs`: a fault is intercepted and becomes the generic
internal-fault error. -/
def catch_unwind {α : Type} : Outcome α → Except Error α
  | .ok a => .ok a
  | .err e => .error e
  | .panicked => .error .internal_fault

/-- Expected digest length in bytes (the engine checksum is a fixed-size
32-byte digest). -/
def CHECKSUM_LEN : Nat := 32

/-- Modelled from the spec: a deterministic fixed-size digest of the module
bytes.  Only determinism and the fixed 32-byte length are relied on by the
boundary contract; the concrete mixing function is a stand-in. -/
def checksumOf (m : List Nat) : List Nat :=
  let h := m.foldl (fun a b => (a * 131 + b + 7) % 2 ^ 256) 0
  (List.range CHECKSUM_LEN).map (fun i => h / 2 ^ (8 * i) % 256)

/-- Modelled from the spec: the external engine cache instance, reduced to
its observable content-addressed store (checksum ↦ module bytes, newest
binding first). -/
structure Engine where
  store : List (List Nat × List Nat)
  deriving Repr, DecidableEq

/-- First binding of a key in an association list. -/
def lookupStore (k : List Nat) : List (List Nat × List Nat) → Option (List Nat)
  | [] => none
  | p :: rest => if p.1 = k then some p.2 else lookupStore k rest

/-- Modelled from the spec: `instance.save(bytes) -> checksum`: computes the
module's checksum and persists the module keyed by it. -/
def Engine.save_wasm (e : Engine) (wasm : List Nat) : List Nat × Engine :=
  let c := checksumOf wasm
  (c, ⟨(c, wasm) :: e.store⟩)

/-- Modelled from the spec: `instance.load(checksum) -> bytes | error`:
absence of the key is the distinct not-found error category. -/
def Engine.load_wasm (e : Engine) (checksum : List Nat) : Except Error (List Nat) :=
  match lookupStore checksum e.store with
  | some wasm => .ok wasm
  | none => .error .not_found

/-- Modelled from the spec: engine cache construction options (base
directory, capability set, sizes in the engine's native unit). -/
structure CacheOptions where
  base_dir : List Nat
  supported_features : List (List Nat)
  memory_cache_size : Nat
  instance_memory_limit : Nat
  deriving Repr, DecidableEq

/-- Modelled from the spec: `Size::mebi` converts a mebibyte count to the
engine's native byte unit. -/
def Size.mebi (n : Nat) : Nat := n * 2 ^ 20

/-- Modelled from the spec: split a byte string on commas. -/
def splitComma : List Nat → List Nat → List (List Nat)
  | [], acc => [acc.reverse]
  | b :: rest, acc =>
    if b = 44 then acc.reverse :: splitComma rest [] else splitComma rest (b :: acc)

/-- Modelled from the spec: the feature list is parsed as a comma-separated
capability set (empty pieces dropped). -/
def features_from_csv (bs : List Nat) : List (List Nat) :=
  (splitComma bs []).filter (fun f => !f.isEmpty)

/-- Modelled from the spec: `EngineCache.new(options) -> instance | error`.
The one construction failure exercised by the repository is a base directory
containing a nul byte (`init_cache_writes_error` in `src/cache.rs`), which
the engine rejects with the quoted message. -/
def Cache.new (options : CacheOptions) : Except Error Engine :=
  if options.base_dir.contains 0 then
    .error (.engine "Cache error: Error creating Wasm dir for cache: data provided contains a nul byte")
  else
    .ok ⟨[]⟩

/-- UTF-8 validity of a byte sequence (the check behind `String::from_utf8`
and `str::from_utf8`), following the standard well-formed byte-sequence
table including surrogate and overlong exclusions. -/
def utf8Valid : List Nat → Bool
  | [] => true
  | b :: rest =>
    if b ≤ 127 then utf8Valid rest
    else if 194 ≤ b ∧ b ≤ 223 then
      match rest with
      | c1 :: r => (decide (128 ≤ c1 ∧ c1 ≤ 191)) && utf8Valid r
      | [] => false
    else if b = 224 then
      match rest with
      | c1 :: c2 :: r =>
        (decide (160 ≤ c1 ∧ c1 ≤ 191)) && (decide (128 ≤ c2 ∧ c2 ≤ 191)) && utf8Valid r
      | _ => false
    else if 225 ≤ b ∧ b ≤ 236 then
      match rest with
      | c1 :: c2 :: r =>
        (decide (128 ≤ c1 ∧ c1 ≤ 191)) && (decide (128 ≤ c2 ∧ c2 ≤ 191)) && utf8Valid r
      | _ => false
    else if b = 237 then
      match rest with
      | c1 :: c2 :: r =>
        (decide (128 ≤ c1 ∧ c1 ≤ 159)) && (decide (128 ≤ c2 ∧ c2 ≤ 191)) && utf8Valid r
      | _ => false
    else if 238 ≤ b ∧ b ≤ 239 then
      match rest with
      | c1 :: c2 :: r =>
        (decide (128 ≤ c1 ∧ c1 ≤ 191)) && (decide (128 ≤ c2 ∧ c2 ≤ 191)) && utf8Valid r
      | _ => false
    else if b = 240 then
      match rest with
      | c1 :: c2 :: c3 :: r =>
        (decide (144 ≤ c1 ∧ c1 ≤ 191)) && (decide (128 ≤ c2 ∧ c2 ≤ 191)) &&
          (decide (128 ≤ c3 ∧ c3 ≤ 191)) && utf8Valid r
      | _ => false
    else if 241 ≤ b ∧ b ≤ 243 then
      match rest with
      | c1 :: c2 :: c3 :: r =>
        (decide (128 ≤ c1 ∧ c1 ≤ 191)) && (decide (128 ≤ c2 ∧ c2 ≤ 191)) &&
          (decide (128 ≤ c3 ∧ c3 ≤ 191)) && utf8Valid r
      | _ => false
    else if b = 244 then
      match rest with
      | c1 :: c2 :: c3 :: r =>
        (decide (128 ≤ c1 ∧ c1 ≤ 143)) && (decide (128 ≤ c2 ∧ c2 ≤ 191)) &&
          (decide (128 ≤ c3 ∧ c3 ≤ 191)) && utf8Valid r
      | _ => false
    else false

/-- The registry of live heap-held cache instances: the model of the process
heap as seen through `Box::into_raw` / `Box::from_raw`.  `next` drives fresh
non-null address allocation. -/
structure World where
  caches : List (Nat × Engine)
  next : Nat
  deriving Repr, DecidableEq

/-- First binding of a handle in the registry. -/
def lookupCache (h : Nat) : List (Nat × Engine) → Option Engine
  | [] => none
  | p :: rest => if p.1 = h then some p.2 else lookupCache h rest

/-- Translation of `to_cache` from `src/cache.rs`: a null pointer yields
`None`, otherwise the handle is dereferenced to the engine cache instance. -/
def to_cache (w : World) (ptr : Nat) : Option Engine :=
  if ptr = 0 then none else lookupCache ptr w.caches

/-- Writing back through the `&mut` reference obtained by `to_cache`: the
instance stored at the handle is replaced, all other bindings unchanged. -/
def World.update (w : World) (h : Nat) (c : Engine) : World :=
  ⟨w.caches.map (fun p => if p.1 = h then (p.1, c) else p), w.next⟩

/-- Translation of `do_init_cache` from `src/cache.rs`: read and UTF-8
validate the data directory, read and UTF-8 validate the feature list and
parse it as a comma-separated set, convert the two `u32` sizes to `usize`
(the `.expect(..)` there panics on overflow, i.e. when the value exceeds
`usize_max`), construct the engine cache and leak it to a stable heap
location, returning its address. -/
def do_init_cache (usize_max : Nat) (w : World) (data_dir supported_features : Buffer)
    (cache_size instance_memory_limit : Nat) : Outcome (Nat × World) :=
  match data_dir.read with
  | none => .err (.empty_arg DATA_DIR_ARG)
  | some dir =>
    if utf8Valid dir then
      match supported_features.read with
      | none => .err (.empty_arg FEATURES_ARG)
      | some features_bin =>
        if utf8Valid features_bin then
          let features := features_from_csv features_bin
          if cache_size ≤ usize_max then
            if instance_memory_limit ≤ usize_max then
              let options : CacheOptions :=
                ⟨dir, features, Size.mebi cache_size, Size.mebi instance_memory_limit⟩
              match Cache.new options with
              | .ok cache =>
                let out := w.next + 1
                .ok (out, ⟨(out, cache) :: w.caches, out⟩)
              | .error e => .err e
            else .panicked
          else .panicked
        else .err .invalid_utf8
    else .err .invalid_utf8

/-- Translation of `init_cache` from `src/cache.rs`: run `do_init_cache`
under `catch_unwind`; on success call `clear_error()` (process-global state
only, the `err` out-parameter is untouched) and return the handle; on
failure call `set_error` and return null. -/
def init_cache (usize_max : Nat) (w : World) (data_dir supported_features : Buffer)
    (cache_size instance_memory_limit : Nat) (err : Option Buffer) :
    Nat × Option Buffer × World :=
  match catch_unwind
      (do_init_cache usize_max w data_dir supported_features cache_size instance_memory_limit) with
  | .ok (t, w2) => (t, err, w2)
  | .error e => (0, set_error e err, w)

/-- Translation of `do_save_wasm` from `src/cache.rs`: read the wasm bytes
(absent → empty-argument error on `WASM_ARG`), then store them in the engine
cache, returning the checksum and the mutated instance. -/
def do_save_wasm (cache : Engine) (wasm : Buffer) : Outcome (List Nat × Engine) :=
  match wasm.read with
  | none => .err (.empty_arg WASM_ARG)
  | some bytes => .ok (cache.save_wasm bytes)

/-- Translation of `save_wasm` from `src/cache.rs`: resolve the handle (null
→ empty-argument error on `CACHE_ARG`), run `do_save_wasm` under
`catch_unwind`, route the result through `handle_c_error` and return the
data as an owned buffer. -/
def save_wasm (w : World) (cache : Nat) (wasm : Buffer) (err : Option Buffer) :
    Buffer × Option Buffer × World :=
  let rw : Except Error (List Nat) × World :=
    match to_cache w cache with
    | some c =>
      match catch_unwind (do_save_wasm c wasm) with
      | .ok (checksum, c2) => (.ok checksum, w.update cache c2)
      | .error e => (.error e, w)
    | none => (.error (.empty_arg CACHE_ARG), w)
  let de := handle_c_error rw.1 err
  (Buffer.from_vec de.1, de.2, rw.2)

/-- The `TryInto<Checksum>` conversion used by `do_load_wasm`: a byte slice
is a well-formed checksum exactly when it has the expected digest length. -/
def checksum_of_slice (bs : List Nat) : Except Error (List Nat) :=
  if bs.length = CHECKSUM_LEN then .ok bs else .error .checksum_format

/-- Translation of `do_load_wasm` from `src/cache.rs`: read the checksum
bytes (absent → empty-argument error named `CACHE_ARG`, exactly as the
source writes it), convert them via `try_into` (wrong length → checksum
format error), then look the module up in the engine cache. -/
def do_load_wasm (cache : Engine) (contract_checksum : Buffer) : Outcome (List Nat) :=
  match contract_checksum.read with
  | none => .err (.empty_arg CACHE_ARG)
  | some bs =>
    match checksum_of_slice bs with
    | .error e => .err e
    | .ok chk =>
      match cache.load_wasm chk with
      | .ok wasm => .ok wasm
      | .error e => .err e

/-- Translation of `load_wasm` from `src/cache.rs`: resolve the handle (null
→ empty-argument error on `CACHE_ARG`), run `do_load_wasm` under
`catch_unwind`, route the result through `handle_c_error` and return the
module bytes as an owned buffer. -/
def load_wasm (w : World) (cache : Nat) (contract_checksum : Buffer) (err : Option Buffer) :
    Buffer × Option Buffer × World :=
  let rw : Except Error (List Nat) × World :=
    match to_cache w cache with
    | some c =>
      match catch_unwind (do_load_wasm c contract_checksum) with
      | .ok wasm => (.ok wasm, w)
      | .error e => (.error e, w)
    | none => (.error (.empty_arg CACHE_ARG), w)
  let de := handle_c_error rw.1 err
  (Buffer.from_vec de.1, de.2, rw.2)

/-- Translation of `release_cache` from `src/cache.rs`: a null handle is a
no-op; otherwise the instance at the handle is reclaimed
(`Box::from_raw`) and freed, i.e. its binding leaves the registry. -/
def release_cache (w : World) (cache : Nat) : World :=
  if cache = 0 then w
  else ⟨w.caches.filter (fun p => p.1 != cache), w.next⟩


/-! Helper lemmas shared by the claim theorems. -/

theorem handle_c_error_fst (r : Except Error (List Nat)) (e1 e2 : Option Buffer) :
    (handle_c_error r e1).1 = (handle_c_error r e2).1 := by
  cases r <;> rfl

theorem errMsgBytes_ne_nil (e : Error) : errMsgBytes e ≠ [] := by
  cases e
  case empty_arg name =>
    intro h
    exact absurd (List.append_eq_nil.mp h).1 (by decide)
  case engine msg =>
    intro h
    exact absurd (List.append_eq_nil.mp h).1 (by decide)
  all_goals decide

theorem checksumOf_length (m : List Nat) : (checksumOf m).length = CHECKSUM_LEN := by
  simp [checksumOf]

theorem checksumOf_ne_nil (m : List Nat) : checksumOf m ≠ [] := by
  intro h
  have hl := checksumOf_length m
  rw [h] at hl
  simp [CHECKSUM_LEN] at hl

theorem lookupCache_update (l : List (Nat × Engine)) (h : Nat) (c2 : Engine) :
    lookupCache h (l.map (fun p => if p.1 = h then (p.1, c2) else p))
      = (lookupCache h l).map (fun _ => c2) := by
  induction l with
  | nil => rfl
  | cons p rest ih =>
    by_cases hp : p.1 = h <;> simp [lookupCache, hp, ih]

theorem lookupCache_filter_self (h : Nat) (l : List (Nat × Engine)) :
    lookupCache h (l.filter (fun p => p.1 != h)) = none := by
  induction l with
  | nil => rfl
  | cons p rest ih =>
    by_cases hp : p.1 = h <;> simp [List.filter_cons, hp, lookupCache, ih]

theorem lookupCache_filter_ne (h h2 : Nat) (l : List (Nat × Engine)) (hne : h2 ≠ h) :
    lookupCache h2 (l.filter (fun p => p.1 != h)) = lookupCache h2 l := by
  induction l with
  | nil => rfl
  | cons p rest ih =>
    by_cases hp : p.1 = h
    · simp [List.filter_cons, hp, lookupCache, Ne.symm hne, ih]
    · simp [List.filter_cons, hp, lookupCache, ih]

theorem lookupCache_eq_none_of_not_mem (h : Nat) (l : List (Nat × Engine))
    (hnm : h ∉ l.map Prod.fst) : lookupCache h l = none := by
  induction l with
  | nil => rfl
  | cons p rest ih =>
    simp only [List.map_cons, List.mem_cons, not_or] at hnm
    obtain ⟨h1, h2⟩ := hnm
    simp [lookupCache, Ne.symm h1, ih h2]

theorem filter_eq_self_of_lookup_none (h : Nat) (l : List (Nat × Engine))
    (hl : lookupCache h l = none) : l.filter (fun p => p.1 != h) = l := by
  induction l with
  | nil => rfl
  | cons p rest ih =>
    by_cases hp : p.1 = h
    · simp [lookupCache, hp] at hl
    · simp only [lookupCache, hp, if_false] at hl
      simp [List.filter_cons, hp, ih hl]

theorem length_filter_release (h : Nat) (e : Engine) (l : List (Nat × Engine))
    (hnd : (l.map Prod.fst).Nodup) (hl : lookupCache h l = some e) :
    (l.filter (fun p => p.1 != h)).length + 1 = l.length := by
  induction l with
  | nil => simp [lookupCache] at hl
  | cons p rest ih =>
    simp only [List.map_cons, List.nodup_cons] at hnd
    obtain ⟨hpm, hnd2⟩ := hnd
    by_cases hp : p.1 = h
    · have hrnone : lookupCache h rest = none := by
        apply lookupCache_eq_none_of_not_mem
        rw [← hp]
        exact hpm
      simp [List.filter_cons, hp, filter_eq_self_of_lookup_none h rest hrnone]
    · simp only [lookupCache, hp, if_false] at hl
      have := ih hnd2 hl
      simp only [List.filter_cons]
      have hbne : (p.1 != h) = true := by simpa using hp
      rw [hbne]
      simp only [if_true, List.length_cons]
      omega

/-! Claim theorems. -/

/-- C3: `save_wasm` with a null handle fails with the empty-handle argument
error (`CACHE_ARG`) for every module buffer and every world, and on a live
handle a null or zero-length module buffer fails with the empty-argument
error on `WASM_ARG`; null and zero-length module buffers produce the same
empty/absent-input error. -/
theorem save_wasm_empty_args (w : World) (m : Buffer) (err : Option Buffer)
    (h : Nat) (e : Engine) (wasm : Buffer) :
    save_wasm w 0 m err = (Buffer.from_vec [], set_error (.empty_arg CACHE_ARG) err, w)
    ∧ (h ≠ 0 → lookupCache h w.caches = some e → wasm.ptr = 0 ∨ wasm.data = [] →
        save_wasm w h wasm err
          = (Buffer.from_vec [], set_error (.empty_arg WASM_ARG) err, w)) := by
  constructor
  · simp [save_wasm, to_cache, handle_c_error]
  · intro hh hl hw
    have hread : wasm.read = none := by
      unfold Buffer.read
      rw [if_pos hw]
    simp [save_wasm, to_cache, hh, hl, do_save_wasm, hread, catch_unwind, handle_c_error]

/-- Witness for C3 at a concrete live world: a null module buffer (with
stale length) and a zero-length non-null module buffer both produce the
`WASM_ARG` empty-argument failure. -/
theorem save_wasm_empty_args_witness :
    ((1 : Nat) ≠ 0 ∧ lookupCache 1 [(1, (⟨[]⟩ : Engine))] = some ⟨[]⟩
      ∧ ((Buffer.mk 0 [5]).ptr = 0 ∨ (Buffer.mk 0 [5]).data = []))
    ∧ save_wasm ⟨[(1, ⟨[]⟩)], 1⟩ 1 ⟨0, [5]⟩ (some ⟨0, []⟩)
        = (Buffer.from_vec [], set_error (.empty_arg WASM_ARG) (some ⟨0, []⟩), ⟨[(1, ⟨[]⟩)], 1⟩)
    ∧ save_wasm ⟨[(1, ⟨[]⟩)], 1⟩ 1 ⟨1, []⟩ (some ⟨0, []⟩)
        = (Buffer.from_vec [], set_error (.empty_arg WASM_ARG) (some ⟨0, []⟩), ⟨[(1, ⟨[]⟩)], 1⟩) :=
  ⟨⟨by decide, by decide, by decide⟩,
   (save_wasm_empty_args ⟨[(1, ⟨[]⟩)], 1⟩ ⟨0, []⟩ (some ⟨0, []⟩) 1 ⟨[]⟩ ⟨0, [5]⟩).2
     (by decide) (by decide) (by decide),
   (save_wasm_empty_args ⟨[(1, ⟨[]⟩)], 1⟩ ⟨0, []⟩ (some ⟨0, []⟩) 1 ⟨[]⟩ ⟨1, []⟩).2
     (by decide) (by decide) (by decide)⟩

/-- C10: on a live handle, `load_wasm` with a null or zero-length checksum
buffer fails with the empty-argument error named `CACHE_ARG` — the very same
argument name the boundary uses for a null handle — and not with any
checksum-specific argument name (`CACHE_ARG` differs from every other
argument-name constant of the boundary). -/
theorem load_wasm_empty_checksum_arg_name (w : World) (h : Nat) (e : Engine)
    (chk : Buffer) (err : Option Buffer)
    (hh : h ≠ 0) (hl : lookupCache h w.caches = some e)
    (hc : chk.ptr = 0 ∨ chk.data = []) :
    do_load_wasm e chk = Outcome.err (.empty_arg CACHE_ARG)
    ∧ load_wasm w h chk err = (Buffer.from_vec [], set_error (.empty_arg CACHE_ARG) err, w)
    ∧ load_wasm w 0 chk err = (Buffer.from_vec [], set_error (.empty_arg CACHE_ARG) err, w)
    ∧ CACHE_ARG ≠ WASM_ARG ∧ CACHE_ARG ≠ DATA_DIR_ARG ∧ CACHE_ARG ≠ FEATURES_ARG := by
  have hread : chk.read = none := by
    unfold Buffer.read
    rw [if_pos hc]
  refine ⟨?_, ?_, ?_, by decide, by decide, by decide⟩
  · simp [do_load_wasm, hread]
  · simp [load_wasm, to_cache, hh, hl, do_load_wasm, hread, catch_unwind, handle_c_error]
  · simp [load_wasm, to_cache, handle_c_error]

/-- Witness for C10 at a concrete live world with a zero-length checksum
buffer. -/
theorem load_wasm_empty_checksum_arg_name_witness :
    ((1 : Nat) ≠ 0 ∧ lookupCache 1 [(1, (⟨[]⟩ : Engine))] = some ⟨[]⟩
      ∧ ((Buffer.mk 1 []).ptr = 0 ∨ (Buffer.mk 1 []).data = []))
    ∧ do_load_wasm ⟨[]⟩ ⟨1, []⟩ = Outcome.err (.empty_arg CACHE_ARG)
    ∧ load_wasm ⟨[(1, ⟨[]⟩)], 1⟩ 1 ⟨1, []⟩ (some ⟨0, []⟩)
        = (Buffer.from_vec [], set_error (.empty_arg CACHE_ARG) (some ⟨0, []⟩), ⟨[(1, ⟨[]⟩)], 1⟩) :=
  ⟨⟨by decide, by decide, by decide⟩,
   (load_wasm_empty_checksum_arg_name ⟨[(1, ⟨[]⟩)], 1⟩ 1 ⟨[]⟩ ⟨1, []⟩ (some ⟨0, []⟩)
     (by decide) (by decide) (by decide)).1,
   (load_wasm_empty_checksum_arg_name ⟨[(1, ⟨[]⟩)], 1⟩ 1 ⟨[]⟩ ⟨1, []⟩ (some ⟨0, []⟩)
     (by decide) (by decide) (by decide)).2.1⟩

/-- C5: `release_cache` on the null handle is a no-op on the whole registry,
and on a live handle it removes exactly that handle's instance from the
registry: the handle no longer resolves, every other handle is untouched,
and (for a registry with distinct handles, as produced by allocation) the
number of live instances drops by exactly one. -/
theorem release_cache_spec (w : World) (h : Nat) (e : Engine) :
    release_cache w 0 = w
    ∧ (h ≠ 0 → lookupCache h w.caches = some e →
        to_cache (release_cache w h) h = none
        ∧ (∀ h2, h2 ≠ h → lookupCache h2 (release_cache w h).caches = lookupCache h2 w.caches)
        ∧ ((w.caches.map Prod.fst).Nodup →
            (release_cache w h).caches.length + 1 = w.caches.length)) := by
  refine ⟨by simp [release_cache], ?_⟩
  intro hh hl
  refine ⟨?_, ?_, ?_⟩
  · simp [to_cache, hh, release_cache, lookupCache_filter_self]
  · intro h2 hne
    simp [release_cache, hh, lookupCache_filter_ne h h2 _ hne]
  · intro hnd
    simp only [release_cache, hh, if_false]
    exact length_filter_release h e _ hnd hl

/-- Witness for C5 at a concrete one-entry registry: releasing the null
handle changes nothing, releasing the live handle 1 empties the registry. -/
theorem release_cache_spec_witness :
    release_cache ⟨[(1, ⟨[]⟩)], 1⟩ 0 = ⟨[(1, ⟨[]⟩)], 1⟩
    ∧ ((1 : Nat) ≠ 0 ∧ lookupCache 1 [(1, (⟨[]⟩ : Engine))] = some ⟨[]⟩)
    ∧ to_cache (release_cache ⟨[(1, ⟨[]⟩)], 1⟩ 1) 1 = none
    ∧ (release_cache ⟨[(1, ⟨[]⟩)], 1⟩ 1).caches.length + 1
        = (World.mk [(1, ⟨[]⟩)] 1).caches.length :=
  ⟨(release_cache_spec ⟨[(1, ⟨[]⟩)], 1⟩ 1 ⟨[]⟩).1,
   ⟨by decide, by decide⟩,
   ((release_cache_spec ⟨[(1, ⟨[]⟩)], 1⟩ 1 ⟨[]⟩).2 (by decide) (by decide)).1,
   ((release_cache_spec ⟨[(1, ⟨[]⟩)], 1⟩ 1 ⟨[]⟩).2 (by decide) (by decide)).2.2 (by decide)⟩

/-- C2: fault containment at the boundary.  Whenever the inner operation of
`init_cache` faults (panics), the boundary intercepts it and returns the
null sentinel together with the generic internal-fault error record — the
fault never crosses the boundary.  The inner operations of `save_wasm` and
`load_wasm` have no fault site in this embedding (every path returns a value
or an error), so for every input each boundary-entry operation yields a
normal result.  `release_cache` is a total function of the registry (see
`release_cache_spec`) and performs no fallible work. -/
theorem boundary_fault_containment (usize_max : Nat) (w : World) (dd sf : Buffer)
    (cs iml : Nat) (err : Option Buffer) :
    (do_init_cache usize_max w dd sf cs iml = Outcome.panicked →
      init_cache usize_max w dd sf cs iml err = (0, set_error .internal_fault err, w))
    ∧ (∀ (c : Engine) (wasm : Buffer), do_save_wasm c wasm ≠ Outcome.panicked)
    ∧ (∀ (c : Engine) (chk : Buffer), do_load_wasm c chk ≠ Outcome.panicked) := by
  refine ⟨?_, ?_, ?_⟩
  · intro hpan
    simp [init_cache, hpan, catch_unwind]
  · intro c wasm
    cases hr : wasm.read <;> simp [do_save_wasm, hr]
  · intro c chk
    cases hr : chk.read with
    | none => simp [do_load_wasm, hr]
    | some bs =>
      cases hcs : checksum_of_slice bs with
      | error e2 => simp [do_load_wasm, hr, hcs]
      | ok chk2 =>
        cases hld : c.load_wasm chk2 <;> simp [do_load_wasm, hr, hcs, hld]

/-- Witness for C2: on a platform whose `usize` cannot hold the value 1
the inner initialization faults, and the boundary converts the fault into
the null handle plus the internal-fault error record. -/
theorem boundary_fault_containment_witness :
    do_init_cache 0 ⟨[], 0⟩ ⟨1, [97]⟩ ⟨1, [98]⟩ 1 1 = Outcome.panicked
    ∧ init_cache 0 ⟨[], 0⟩ ⟨1, [97]⟩ ⟨1, [98]⟩ 1 1 (some ⟨0, []⟩)
        = (0, set_error .internal_fault (some ⟨0, []⟩), ⟨[], 0⟩) :=
  ⟨by decide,
   (boundary_fault_containment 0 ⟨[], 0⟩ ⟨1, [97]⟩ ⟨1, [98]⟩ 1 1 (some ⟨0, []⟩)).1 (by decide)⟩

/-- C8: in `do_init_cache`, if converting `cache_size` or
`instance_memory_limit` to the platform size representation overflows
(the value exceeds `usize_max`), the inner operation faults — it is not a
recoverable error value returned through the error channel — and the
boundary surfaces it as the generic internal-fault category. -/
theorem size_overflow_is_internal_fault (usize_max : Nat) (w : World) (dd sf : Buffer)
    (d f : List Nat) (cs iml : Nat) (err : Option Buffer)
    (hdd : dd.read = some d) (hdv : utf8Valid d = true)
    (hsf : sf.read = some f) (hfv : utf8Valid f = true)
    (hov : usize_max < cs ∨ usize_max < iml) :
    do_init_cache usize_max w dd sf cs iml = Outcome.panicked
    ∧ (∀ e2, do_init_cache usize_max w dd sf cs iml ≠ Outcome.err e2)
    ∧ init_cache usize_max w dd sf cs iml err
        = (0, set_error Error.internal_fault err, w) := by
  have hpan : do_init_cache usize_max w dd sf cs iml = Outcome.panicked := by
    by_cases hcs : cs ≤ usize_max
    · have himl : ¬ iml ≤ usize_max := by omega
      simp [do_init_cache, hdd, hdv, hsf, hfv, hcs, himl]
    · simp [do_init_cache, hdd, hdv, hsf, hfv, hcs]
  refine ⟨hpan, ?_, ?_⟩
  · intro e2
    rw [hpan]
    simp
  · simp [init_cache, hpan, catch_unwind]

/-- Witness for C8: a 16-bit-style platform (`usize_max = 65535`) with
`cache_size = 65536` faults during initialization and the boundary reports
the internal-fault record, not an argument or configuration error. -/
theorem size_overflow_is_internal_fault_witness :
    (Buffer.read ⟨1, [100]⟩ = some [100] ∧ utf8Valid [100] = true
      ∧ Buffer.read ⟨1, [115]⟩ = some [115] ∧ utf8Valid [115] = true
      ∧ (65535 < 65536 ∨ 65535 < 32))
    ∧ do_init_cache 65535 ⟨[], 0⟩ ⟨1, [100]⟩ ⟨1, [115]⟩ 65536 32 = Outcome.panicked
    ∧ init_cache 65535 ⟨[], 0⟩ ⟨1, [100]⟩ ⟨1, [115]⟩ 65536 32 (some ⟨0, []⟩)
        = (0, set_error Error.internal_fault (some ⟨0, []⟩), ⟨[], 0⟩) :=
  ⟨⟨by decide, by decide, by decide, by decide, Or.inl (by decide)⟩,
   (size_overflow_is_internal_fault 65535 ⟨[], 0⟩ ⟨1, [100]⟩ ⟨1, [115]⟩ [100] [115] 65536 32
     (some ⟨0, []⟩) (by decide) (by decide) (by decide) (by decide) (Or.inl (by decide))).1,
   (size_overflow_is_internal_fault 65535 ⟨[], 0⟩ ⟨1, [100]⟩ ⟨1, [115]⟩ [100] [115] 65536 32
     (some ⟨0, []⟩) (by decide) (by decide) (by decide) (by decide) (Or.inl (by decide))).2.2⟩

/-- C4: on a live handle, a checksum buffer of the wrong length fails with
the checksum-format error, and a well-formed (exact digest length) checksum
that was never saved fails with the not-found error; the two failure
categories are distinct errors with distinct messages. -/
theorem load_wasm_error_categories (w : World) (h : Nat) (e : Engine) (err : Option Buffer)
    (hh : h ≠ 0) (hl : lookupCache h w.caches = some e) :
    (∀ (chk : Buffer) (bs : List Nat), chk.read = some bs → bs.length ≠ CHECKSUM_LEN →
      do_load_wasm e chk = Outcome.err Error.checksum_format
      ∧ load_wasm w h chk err = (Buffer.from_vec [], set_error .checksum_format err, w))
    ∧ (∀ (chk : Buffer) (bs : List Nat), chk.read = some bs → bs.length = CHECKSUM_LEN →
        lookupStore bs e.store = none →
        do_load_wasm e chk = Outcome.err Error.not_found
        ∧ load_wasm w h chk err = (Buffer.from_vec [], set_error .not_found err, w))
    ∧ Error.checksum_format ≠ Error.not_found
    ∧ errMsgBytes Error.checksum_format ≠ errMsgBytes Error.not_found := by
  refine ⟨?_, ?_, by decide, by decide⟩
  · intro chk bs hr hlen
    have hdo : do_load_wasm e chk = Outcome.err Error.checksum_format := by
      simp [do_load_wasm, hr, checksum_of_slice, hlen]
    exact ⟨hdo, by simp [load_wasm, to_cache, hh, hl, hdo, catch_unwind, handle_c_error]⟩
  · intro chk bs hr hlen hstore
    have hdo : do_load_wasm e chk = Outcome.err Error.not_found := by
      simp [do_load_wasm, hr, checksum_of_slice, hlen, Engine.load_wasm, hstore]
    exact ⟨hdo, by simp [load_wasm, to_cache, hh, hl, hdo, catch_unwind, handle_c_error]⟩

/-- Witness for C4 at a concrete live world with an empty store: a 3-byte
checksum is rejected as malformed, a 32-byte checksum that was never saved
is rejected as not found. -/
theorem load_wasm_error_categories_witness :
    (Buffer.read ⟨1, [1, 2, 3]⟩ = some [1, 2, 3] ∧ [1, 2, 3].length ≠ CHECKSUM_LEN)
    ∧ load_wasm ⟨[(1, ⟨[]⟩)], 1⟩ 1 ⟨1, [1, 2, 3]⟩ (some ⟨0, []⟩)
        = (Buffer.from_vec [], set_error .checksum_format (some ⟨0, []⟩), ⟨[(1, ⟨[]⟩)], 1⟩)
    ∧ (Buffer.read ⟨1, List.replicate 32 0⟩ = some (List.replicate 32 0)
        ∧ (List.replicate 32 0).length = CHECKSUM_LEN
        ∧ lookupStore (List.replicate 32 0) (Engine.mk []).store = none)
    ∧ load_wasm ⟨[(1, ⟨[]⟩)], 1⟩ 1 ⟨1, List.replicate 32 0⟩ (some ⟨0, []⟩)
        = (Buffer.from_vec [], set_error .not_found (some ⟨0, []⟩), ⟨[(1, ⟨[]⟩)], 1⟩) :=
  ⟨⟨by decide, by decide⟩,
   ((load_wasm_error_categories ⟨[(1, ⟨[]⟩)], 1⟩ 1 ⟨[]⟩ (some ⟨0, []⟩)
      (by decide) (by decide)).1 ⟨1, [1, 2, 3]⟩ [1, 2, 3] (by decide) (by decide)).2,
   ⟨by decide, by decide, by decide⟩,
   ((load_wasm_error_categories ⟨[(1, ⟨[]⟩)], 1⟩ 1 ⟨[]⟩ (some ⟨0, []⟩)
      (by decide) (by decide)).2.1 ⟨1, List.replicate 32 0⟩ (List.replicate 32 0)
      (by decide) (by decide) (by decide)).2⟩

/-- C9: `init_cache` validates UTF-8 of the data directory, then UTF-8 of
the feature list (parsed as a comma-separated set); an invalid input or an
engine-construction failure (here: base directory containing a nul byte)
yields the null handle with the error channel populated accordingly, and a
fully valid configuration yields a fresh non-null handle registered in the
heap, with the error out-parameter untouched. -/
theorem init_cache_validation (usize_max : Nat) (w : World) (dd sf : Buffer)
    (cs iml : Nat) (err : Option Buffer) :
    (∀ d, dd.read = some d → utf8Valid d = false →
      init_cache usize_max w dd sf cs iml err = (0, set_error .invalid_utf8 err, w))
    ∧ (∀ d f, dd.read = some d → utf8Valid d = true → sf.read = some f →
        utf8Valid f = false →
        init_cache usize_max w dd sf cs iml err = (0, set_error .invalid_utf8 err, w))
    ∧ (∀ d f, dd.read = some d → utf8Valid d = true → sf.read = some f →
        utf8Valid f = true → cs ≤ usize_max → iml ≤ usize_max → d.contains 0 = true →
        init_cache usize_max w dd sf cs iml err
          = (0, set_error
              (.engine "Cache error: Error creating Wasm dir for cache: data provided contains a nul byte")
              err, w))
    ∧ (∀ d f, dd.read = some d → utf8Valid d = true → sf.read = some f →
        utf8Valid f = true → cs ≤ usize_max → iml ≤ usize_max → d.contains 0 = false →
        init_cache usize_max w dd sf cs iml err
          = (w.next + 1, err, ⟨(w.next + 1, ⟨[]⟩) :: w.caches, w.next + 1⟩)
        ∧ w.next + 1 ≠ 0) := by
  refine ⟨?_, ?_, ?_, ?_⟩
  · intro d hd hdv
    have hdo : do_init_cache usize_max w dd sf cs iml = Outcome.err Error.invalid_utf8 := by
      simp [do_init_cache, hd, hdv]
    simp [init_cache, hdo, catch_unwind]
  · intro d f hd hdv hf hfv
    have hdo : do_init_cache usize_max w dd sf cs iml = Outcome.err Error.invalid_utf8 := by
      simp [do_init_cache, hd, hdv, hf, hfv]
    simp [init_cache, hdo, catch_unwind]
  · intro d f hd hdv hf hfv hcs himl hnul
    have h0 : 0 ∈ d := by simpa using hnul
    have hdo : do_init_cache usize_max w dd sf cs iml
        = Outcome.err
            (.engine "Cache error: Error creating Wasm dir for cache: data provided contains a nul byte") := by
      simp [do_init_cache, hd, hdv, hf, hfv, hcs, himl, Cache.new, h0]
    simp [init_cache, hdo, catch_unwind]
  · intro d f hd hdv hf hfv hcs himl hnul
    have h0 : 0 ∉ d := by simpa using hnul
    have hdo : do_init_cache usize_max w dd sf cs iml
        = Outcome.ok (w.next + 1, ⟨(w.next + 1, ⟨[]⟩) :: w.caches, w.next + 1⟩) := by
      simp [do_init_cache, hd, hdv, hf, hfv, hcs, himl, Cache.new, h0]
    exact ⟨by simp [init_cache, hdo, catch_unwind], Nat.succ_ne_zero w.next⟩

/-- Witness for C9: invalid UTF-8 in the directory, invalid UTF-8 in the
feature list, a nul byte in the directory, and a fully valid configuration,
each at concrete inputs. -/
theorem init_cache_validation_witness :
    (Buffer.read ⟨1, [255]⟩ = some [255] ∧ utf8Valid [255] = false)
    ∧ init_cache 100 ⟨[], 0⟩ ⟨1, [255]⟩ ⟨1, [115]⟩ 1 1 (some ⟨0, []⟩)
        = (0, set_error .invalid_utf8 (some ⟨0, []⟩), ⟨[], 0⟩)
    ∧ init_cache 100 ⟨[], 0⟩ ⟨1, [97]⟩ ⟨1, [255]⟩ 1 1 (some ⟨0, []⟩)
        = (0, set_error .invalid_utf8 (some ⟨0, []⟩), ⟨[], 0⟩)
    ∧ init_cache 100 ⟨[], 0⟩ ⟨1, [97, 0]⟩ ⟨1, [115]⟩ 1 1 (some ⟨0, []⟩)
        = (0, set_error
            (.engine "Cache error: Error creating Wasm dir for cache: data provided contains a nul byte")
            (some ⟨0, []⟩), ⟨[], 0⟩)
    ∧ init_cache 100 ⟨[], 0⟩ ⟨1, [97]⟩ ⟨1, [115]⟩ 1 1 (some ⟨0, []⟩)
        = (1, some ⟨0, []⟩, ⟨[(1, ⟨[]⟩)], 1⟩) :=
  ⟨⟨by decide, by decide⟩,
   (init_cache_validation 100 ⟨[], 0⟩ ⟨1, [255]⟩ ⟨1, [115]⟩ 1 1 (some ⟨0, []⟩)).1
     [255] (by decide) (by decide),
   (init_cache_validation 100 ⟨[], 0⟩ ⟨1, [97]⟩ ⟨1, [255]⟩ 1 1 (some ⟨0, []⟩)).2.1
     [97] [255] (by decide) (by decide) (by decide) (by decide),
   (init_cache_validation 100 ⟨[], 0⟩ ⟨1, [97, 0]⟩ ⟨1, [115]⟩ 1 1 (some ⟨0, []⟩)).2.2.1
     [97, 0] [115] (by decide) (by decide) (by decide) (by decide) (by decide) (by decide)
     (by decide),
   ((init_cache_validation 100 ⟨[], 0⟩ ⟨1, [97]⟩ ⟨1, [115]⟩ 1 1 (some ⟨0, []⟩)).2.2.2
     [97] [115] (by decide) (by decide) (by decide) (by decide) (by decide) (by decide)
     (by decide)).1⟩

/-- C1: on a live handle, saving a (non-empty, readable) module `m` returns
the owned buffer holding `checksumOf m`; loading with that returned checksum
afterwards returns an owned buffer holding bytes equal to `m`; and saving
the identical bytes a second time returns the very same checksum buffer. -/
theorem save_load_roundtrip (w : World) (h : Nat) (e : Engine) (wasm : Buffer)
    (m : List Nat) (err1 err2 err3 : Option Buffer)
    (hh : h ≠ 0) (hl : lookupCache h w.caches = some e) (hr : wasm.read = some m) :
    (save_wasm w h wasm err1).1 = Buffer.from_vec (checksumOf m)
    ∧ (load_wasm (save_wasm w h wasm err1).2.2 h (Buffer.from_vec (checksumOf m)) err2).1
        = Buffer.from_vec m
    ∧ (save_wasm (save_wasm w h wasm err1).2.2 h wasm err3).1
        = Buffer.from_vec (checksumOf m) := by
  have hsave : save_wasm w h wasm err1
      = (Buffer.from_vec (checksumOf m), err1,
         w.update h ⟨(checksumOf m, m) :: e.store⟩) := by
    simp [save_wasm, to_cache, hh, hl, do_save_wasm, hr, Engine.save_wasm, catch_unwind,
      handle_c_error]
  have hl2 : to_cache (w.update h ⟨(checksumOf m, m) :: e.store⟩) h
      = some ⟨(checksumOf m, m) :: e.store⟩ := by
    simp [to_cache, hh, World.update, lookupCache_update, hl]
  have hcbr : (Buffer.from_vec (checksumOf m)).read = some (checksumOf m) := by
    simp [Buffer.from_vec, Buffer.read, checksumOf_ne_nil m]
  have hdo : do_load_wasm ⟨(checksumOf m, m) :: e.store⟩ (Buffer.from_vec (checksumOf m))
      = Outcome.ok m := by
    simp [do_load_wasm, hcbr, checksum_of_slice, checksumOf_length, Engine.load_wasm,
      lookupStore]
  refine ⟨by rw [hsave], ?_, ?_⟩
  · rw [hsave]
    simp [load_wasm, hl2, hdo, catch_unwind, handle_c_error]
  · rw [hsave]
    simp [save_wasm, hl2, do_save_wasm, hr, Engine.save_wasm, catch_unwind, handle_c_error]

/-- Witness for C1 at a concrete live world and the one-byte module `[7]`. -/
theorem save_load_roundtrip_witness :
    ((1 : Nat) ≠ 0 ∧ lookupCache 1 [(1, (⟨[]⟩ : Engine))] = some ⟨[]⟩
      ∧ Buffer.read ⟨1, [7]⟩ = some [7])
    ∧ (save_wasm ⟨[(1, ⟨[]⟩)], 1⟩ 1 ⟨1, [7]⟩ none).1 = Buffer.from_vec (checksumOf [7])
    ∧ (load_wasm (save_wasm ⟨[(1, ⟨[]⟩)], 1⟩ 1 ⟨1, [7]⟩ none).2.2 1
        (Buffer.from_vec (checksumOf [7])) none).1 = Buffer.from_vec [7]
    ∧ (save_wasm (save_wasm ⟨[(1, ⟨[]⟩)], 1⟩ 1 ⟨1, [7]⟩ none).2.2 1 ⟨1, [7]⟩ none).1
        = Buffer.from_vec (checksumOf [7]) := by
  refine ⟨⟨by decide, by decide, by decide⟩, ?_, ?_, ?_⟩
  · exact (save_load_roundtrip ⟨[(1, ⟨[]⟩)], 1⟩ 1 ⟨[]⟩ ⟨1, [7]⟩ [7] none none none
      (by decide) (by decide) (by decide)).1
  · exact (save_load_roundtrip ⟨[(1, ⟨[]⟩)], 1⟩ 1 ⟨[]⟩ ⟨1, [7]⟩ [7] none none none
      (by decide) (by decide) (by decide)).2.1
  · exact (save_load_roundtrip ⟨[(1, ⟨[]⟩)], 1⟩ 1 ⟨[]⟩ ⟨1, [7]⟩ [7] none none none
      (by decide) (by decide) (by decide)).2.2

/-- C7: for each boundary-entry operation taking the optional error
out-parameter, the primary return value and the resulting registry are
identical whether the caller supplies the out-parameter or passes none —
its presence changes observability only. -/
theorem err_param_does_not_affect_result (usize_max : Nat) (w : World) (dd sf : Buffer)
    (cs iml : Nat) (b : Buffer) (h : Nat) (wasm chkb : Buffer) :
    (init_cache usize_max w dd sf cs iml (some b)).1
        = (init_cache usize_max w dd sf cs iml none).1
    ∧ (init_cache usize_max w dd sf cs iml (some b)).2.2
        = (init_cache usize_max w dd sf cs iml none).2.2
    ∧ (save_wasm w h wasm (some b)).1 = (save_wasm w h wasm none).1
    ∧ (save_wasm w h wasm (some b)).2.2 = (save_wasm w h wasm none).2.2
    ∧ (load_wasm w h chkb (some b)).1 = (load_wasm w h chkb none).1
    ∧ (load_wasm w h chkb (some b)).2.2 = (load_wasm w h chkb none).2.2 := by
  have hinit : ∀ q : Prop, (∀ t w2,
        catch_unwind (do_init_cache usize_max w dd sf cs iml) = Except.ok (t, w2) → q) →
      (∀ e2, catch_unwind (do_init_cache usize_max w dd sf cs iml) = Except.error e2 → q) →
      q := by
    intro q hok herr
    cases hc : catch_unwind (do_init_cache usize_max w dd sf cs iml) with
    | ok p => exact hok p.1 p.2 (by rw [hc])
    | error e2 => exact herr e2 hc
  refine ⟨?_, ?_, ?_, ?_, ?_, ?_⟩
  · exact hinit _ (fun t w2 hc => by simp [init_cache, hc]) (fun e2 hc => by simp [init_cache, hc, set_error])
  · exact hinit _ (fun t w2 hc => by simp [init_cache, hc]) (fun e2 hc => by simp [init_cache, hc, set_error])
  all_goals {
    first
    | (cases htc : to_cache w h with
        | none => simp [save_wasm, load_wasm, htc, handle_c_error, set_error]
        | some c =>
          first
          | (cases hcu : catch_unwind (do_save_wasm c wasm) with
              | ok p => simp [save_wasm, htc, hcu, handle_c_error]
              | error e2 => simp [save_wasm, htc, hcu, handle_c_error, set_error])
          | (cases hcu : catch_unwind (do_load_wasm c chkb) with
              | ok p => simp [load_wasm, htc, hcu, handle_c_error]
              | error e2 => simp [load_wasm, htc, hcu, handle_c_error, set_error]))
  }

/-- Counterexample to C6 as stated: a successful `save_wasm` call (the
primary return is the non-sentinel checksum buffer) that was given an error
out-parameter already holding non-empty prior content leaves that prior
content in place — the record afterwards is not a zero-length buffer and
prior content was not cleared. -/
theorem error_record_success_prior_content_cex :
    (save_wasm ⟨[(1, ⟨[]⟩)], 1⟩ 1 ⟨1, [7]⟩ (some ⟨1, [65]⟩)).1
        = Buffer.from_vec (checksumOf [7])
    ∧ checksumOf [7] ≠ []
    ∧ (save_wasm ⟨[(1, ⟨[]⟩)], 1⟩ 1 ⟨1, [7]⟩ (some ⟨1, [65]⟩)).2.1 = some ⟨1, [65]⟩
    ∧ (save_wasm ⟨[(1, ⟨[]⟩)], 1⟩ 1 ⟨1, [7]⟩ (some ⟨1, [65]⟩)).2.1
        ≠ some (Buffer.from_vec [])
    ∧ (Buffer.mk 1 [65]).data ≠ [] := by
  refine ⟨by decide, by decide, by decide, by decide, by decide⟩

/-- C6 as amended: for every boundary-entry operation given an error
out-parameter, on failure the primary return is the sentinel (null handle or
empty buffer) and the error record is populated with the non-empty
serialized message of the failure; on success the error record is left
exactly as the caller passed it — prior content is not cleared (only the
process-wide last-error state is reset). -/
theorem error_record_population (usize_max : Nat) (w : World) (dd sf : Buffer)
    (cs iml : Nat) (b : Buffer) (h : Nat) (wasm chkb : Buffer) :
    (∀ e2, catch_unwind (do_init_cache usize_max w dd sf cs iml) = Except.error e2 →
      init_cache usize_max w dd sf cs iml (some b)
        = (0, some (Buffer.from_vec (errMsgBytes e2)), w) ∧ errMsgBytes e2 ≠ [])
    ∧ (∀ t w2, catch_unwind (do_init_cache usize_max w dd sf cs iml) = Except.ok (t, w2) →
        init_cache usize_max w dd sf cs iml (some b) = (t, some b, w2))
    ∧ (to_cache w h = none →
        save_wasm w h wasm (some b)
          = (Buffer.from_vec [],
             some (Buffer.from_vec (errMsgBytes (.empty_arg CACHE_ARG))), w)
        ∧ errMsgBytes (Error.empty_arg CACHE_ARG) ≠ [])
    ∧ (∀ c, to_cache w h = some c → wasm.read = none →
        save_wasm w h wasm (some b)
          = (Buffer.from_vec [],
             some (Buffer.from_vec (errMsgBytes (.empty_arg WASM_ARG))), w)
        ∧ errMsgBytes (Error.empty_arg WASM_ARG) ≠ [])
    ∧ (∀ c m, to_cache w h = some c → wasm.read = some m →
        (save_wasm w h wasm (some b)).2.1 = some b
        ∧ (save_wasm w h wasm (some b)).1 = Buffer.from_vec (checksumOf m))
    ∧ (∀ c e2, to_cache w h = some c → do_load_wasm c chkb = Outcome.err e2 →
        load_wasm w h chkb (some b)
          = (Buffer.from_vec [], some (Buffer.from_vec (errMsgBytes e2)), w)
        ∧ errMsgBytes e2 ≠ [])
    ∧ (∀ c mo, to_cache w h = some c → do_load_wasm c chkb = Outcome.ok mo →
        (load_wasm w h chkb (some b)).2.1 = some b
        ∧ (load_wasm w h chkb (some b)).1 = Buffer.from_vec mo) := by
  refine ⟨?_, ?_, ?_, ?_, ?_, ?_, ?_⟩
  · intro e2 hc
    exact ⟨by simp [init_cache, hc, set_error], errMsgBytes_ne_nil e2⟩
  · intro t w2 hc
    simp [init_cache, hc]
  · intro htc
    exact ⟨by simp [save_wasm, htc, handle_c_error, set_error], errMsgBytes_ne_nil _⟩
  · intro c htc hwr
    refine ⟨?_, errMsgBytes_ne_nil _⟩
    simp [save_wasm, htc, do_save_wasm, hwr, catch_unwind, handle_c_error, set_error]
  · intro c m htc hwr
    constructor <;>
      simp [save_wasm, htc, do_save_wasm, hwr, Engine.save_wasm, catch_unwind, handle_c_error]
  · intro c e2 htc hdo
    refine ⟨?_, errMsgBytes_ne_nil _⟩
    simp [load_wasm, htc, hdo, catch_unwind, handle_c_error, set_error]
  · intro c mo htc hdo
    constructor <;> simp [load_wasm, htc, hdo, catch_unwind, handle_c_error]

/-- Witness for the amended C6, exercising every clause at concrete inputs:
a failing and a succeeding `init_cache`, `save_wasm` failing on a null
handle, on an empty module and succeeding, `load_wasm` failing on a
malformed checksum and succeeding on a stored one. -/
theorem error_record_population_witness :
    catch_unwind (do_init_cache 100 ⟨[], 0⟩ ⟨0, []⟩ ⟨1, [115]⟩ 1 1)
        = Except.error (.empty_arg DATA_DIR_ARG)
    ∧ init_cache 100 ⟨[], 0⟩ ⟨0, []⟩ ⟨1, [115]⟩ 1 1 (some ⟨1, [65]⟩)
        = (0, some (Buffer.from_vec (errMsgBytes (.empty_arg DATA_DIR_ARG))), ⟨[], 0⟩)
    ∧ catch_unwind (do_init_cache 100 ⟨[], 0⟩ ⟨1, [97]⟩ ⟨1, [115]⟩ 1 1)
        = Except.ok (1, ⟨[(1, ⟨[]⟩)], 1⟩)
    ∧ init_cache 100 ⟨[], 0⟩ ⟨1, [97]⟩ ⟨1, [115]⟩ 1 1 (some ⟨1, [65]⟩)
        = (1, some ⟨1, [65]⟩, ⟨[(1, ⟨[]⟩)], 1⟩)
    ∧ to_cache ⟨[(1, ⟨[]⟩)], 1⟩ 0 = none
    ∧ save_wasm ⟨[(1, ⟨[]⟩)], 1⟩ 0 ⟨1, [7]⟩ (some ⟨1, [65]⟩)
        = (Buffer.from_vec [],
           some (Buffer.from_vec (errMsgBytes (.empty_arg CACHE_ARG))), ⟨[(1, ⟨[]⟩)], 1⟩)
    ∧ save_wasm ⟨[(1, ⟨[]⟩)], 1⟩ 1 ⟨1, []⟩ (some ⟨1, [65]⟩)
        = (Buffer.from_vec [],
           some (Buffer.from_vec (errMsgBytes (.empty_arg WASM_ARG))), ⟨[(1, ⟨[]⟩)], 1⟩)
    ∧ (save_wasm ⟨[(1, ⟨[]⟩)], 1⟩ 1 ⟨1, [7]⟩ (some ⟨1, [65]⟩)).2.1 = some ⟨1, [65]⟩
    ∧ load_wasm ⟨[(1, ⟨[]⟩)], 1⟩ 1 ⟨1, [1]⟩ (some ⟨1, [65]⟩)
        = (Buffer.from_vec [],
           some (Buffer.from_vec (errMsgBytes Error.checksum_format)), ⟨[(1, ⟨[]⟩)], 1⟩)
    ∧ (load_wasm ⟨[(1, ⟨[(List.replicate 32 0, [9])]⟩)], 1⟩ 1 ⟨1, List.replicate 32 0⟩
        (some ⟨1, [65]⟩)).2.1 = some ⟨1, [65]⟩ := by
  refine ⟨by rfl, ?_, by rfl, ?_, by decide, ?_, ?_, ?_, ?_, ?_⟩
  · exact ((error_record_population 100 ⟨[], 0⟩ ⟨0, []⟩ ⟨1, [115]⟩ 1 1 ⟨1, [65]⟩ 0
      ⟨0, []⟩ ⟨0, []⟩).1 (.empty_arg DATA_DIR_ARG) (by rfl)).1
  · exact (error_record_population 100 ⟨[], 0⟩ ⟨1, [97]⟩ ⟨1, [115]⟩ 1 1 ⟨1, [65]⟩ 0
      ⟨0, []⟩ ⟨0, []⟩).2.1 1 ⟨[(1, ⟨[]⟩)], 1⟩ (by rfl)
  · exact ((error_record_population 100 ⟨[(1, ⟨[]⟩)], 1⟩ ⟨0, []⟩ ⟨0, []⟩ 1 1 ⟨1, [65]⟩ 0
      ⟨1, [7]⟩ ⟨0, []⟩).2.2.1 (by decide)).1
  · exact ((error_record_population 100 ⟨[(1, ⟨[]⟩)], 1⟩ ⟨0, []⟩ ⟨0, []⟩ 1 1 ⟨1, [65]⟩ 1
      ⟨1, []⟩ ⟨0, []⟩).2.2.2.1 ⟨[]⟩ (by decide) (by decide)).1
  · exact ((error_record_population 100 ⟨[(1, ⟨[]⟩)], 1⟩ ⟨0, []⟩ ⟨0, []⟩ 1 1 ⟨1, [65]⟩ 1
      ⟨1, [7]⟩ ⟨0, []⟩).2.2.2.2.1 ⟨[]⟩ [7] (by decide) (by decide)).1
  · exact ((error_record_population 100 ⟨[(1, ⟨[]⟩)], 1⟩ ⟨0, []⟩ ⟨0, []⟩ 1 1 ⟨1, [65]⟩ 1
      ⟨0, []⟩ ⟨1, [1]⟩).2.2.2.2.2.1 ⟨[]⟩ Error.checksum_format (by decide) (by decide)).1
  · exact ((error_record_population 100 ⟨[(1, ⟨[(List.replicate 32 0, [9])]⟩)], 1⟩ ⟨0, []⟩
      ⟨0, []⟩ 1 1 ⟨1, [65]⟩ 1 ⟨0, []⟩ ⟨1, List.replicate 32 0⟩).2.2.2.2.2.2 ⟨[(List.replicate 32 0, [9])]⟩
      [9] (by decide) (by decide)).1
